import Mathlib

/-!
Verification development for the Dahua IP-camera HTTP client
(custom_components/dahua/client.py).

The Python client is embedded shallowly:

* `parse_dahua_api_response` is translated directly, including Python's
  `str.splitlines` line-boundary semantics and `str.split("=", 1)`.
* Python `dict` insertion is modelled by an association list with
  insertion-order append for fresh keys and in-place overwrite for
  existing keys; `k in d` is key membership (`dictContains`).
* The network is abstracted by a `RequestOutcome` describing what the
  underlying authenticated request did; `get` and `get_bytes` map each
  outcome through the exception handlers of the source.  A Python
  function body that falls off the end returns `none` (Python `None`);
  a raised exception that escapes is `Except.error`.
* `stream_events` is modelled as a function from credentials and a
  `StreamOutcome` (what the transport produced) to a `StreamRun` record
  of its observable effects: whether a request was issued, the chunks
  delivered to `on_receive`, how many times the response was released,
  and what (if anything) escaped the call.
* `DigestAuth` construction is tracked by the action-trace model
  (`ClientAction` / `runClient`) used for the authenticator-ownership
  claim.
-/

namespace Dahua

/-- Line terminators recognised by Python `str.splitlines`:
LF, CR, VT, FF, FS, GS, RS, NEL, LINE SEPARATOR, PARAGRAPH SEPARATOR
(CRLF is handled as a pair by `splitlinesAux`). -/
def isLineTerm (c : Char) : Bool :=
  c == Char.ofNat 10 || c == Char.ofNat 13 || c == Char.ofNat 11 ||
  c == Char.ofNat 12 || c == Char.ofNat 28 || c == Char.ofNat 29 ||
  c == Char.ofNat 30 || c == Char.ofNat 133 || c == Char.ofNat 8232 ||
  c == Char.ofNat 8233

/-- Worker for `splitlines`.  `prevCR` records whether the previous
character was a CR, so that a following LF is swallowed (CRLF counts as
one line break).  A trailing segment only yields a line when nonempty,
matching Python `str.splitlines`. -/
def splitlinesAux : List Char → Bool → List Char → List String
  | [], _, acc => if acc.isEmpty then [] else [String.mk acc.reverse]
  | c :: rest, prevCR, acc =>
    if c = Char.ofNat 10 ∧ prevCR = true then
      splitlinesAux rest false acc
    else if c = Char.ofNat 13 then
      String.mk acc.reverse :: splitlinesAux rest true []
    else if isLineTerm c then
      String.mk acc.reverse :: splitlinesAux rest false []
    else
      splitlinesAux rest false (c :: acc)

/-- Python `data.splitlines()`. -/
def splitlines (s : String) : List String :=
  splitlinesAux s.data false []

/-- Python `line.split("=", 1)`: locate the first `=`; `some (k, v)`
is the two-part split, `none` means the line holds no `=`. -/
def splitFirstEq : List Char → Option (List Char × List Char)
  | [] => none
  | c :: rest =>
    if c = '=' then some ([], rest)
    else
      match splitFirstEq rest with
      | some kv => some (c :: kv.1, kv.2)
      | none => none

/-- Python `k in d` for the association-list model of `dict`. -/
def dictContains (d : List (String × String)) (k : String) : Bool :=
  d.any fun p => p.1 == k

/-- Python `d[k] = v` for the association-list model of `dict`:
overwrite in place when the key exists, else append. -/
def dictInsert (d : List (String × String)) (k v : String) :
    List (String × String) :=
  if dictContains d k then
    d.map fun p => if p.1 = k then (k, v) else p
  else
    d ++ [(k, v)]

/-- One iteration of the loop in `parse_dahua_api_response`
(client.py lines 474-480). -/
def parseLine (d : List (String × String)) (line : String) :
    List (String × String) :=
  match splitFirstEq line.data with
  | some kv => dictInsert d (String.mk kv.1) (String.mk kv.2)
  | none => dictInsert d line line

/-- DahuaClient.parse_dahua_api_response (client.py lines 462-481). -/
def parse_dahua_api_response (data : String) : List (String × String) :=
  (splitlines data).foldl parseLine []

/-- Python `str(enabled).lower()`. -/
def pyBool (b : Bool) : String :=
  if b then "true" else "false"

/-- Python `"|".join(filter(None, parts))`. -/
def joinPipe (parts : List String) : String :=
  String.intercalate "|" (parts.filter fun t => !(t == ""))

/-! Set-configuration operations.  Each one is modelled as a function
from its parameters and the decoded response body of its single GET to
the pair of (request path, outcome), where the outcome is
`Except.ok ()` when the Python method returns normally and
`Except.error msg` when it raises `Exception(msg)`. -/

/-- DahuaClient.async_set_video_profile_mode (client.py lines 199-214). -/
def async_set_video_profile_mode (mode : String) (body : String) :
    String × Except String Unit :=
  let m := if mode.toLower = "night" then "1" else "0"
  let url := "/cgi-bin/configManager.cgi?action=setConfig&VideoInMode[0].Config[0]=" ++ m
  let value := parse_dahua_api_response body
  if !dictContains value "OK" && !dictContains value "ok" then
    (url, Except.error "Could not set video profile mode")
  else
    (url, Except.ok ())

/-- DahuaClient.async_enable_channel_title (client.py lines 216-223). -/
def async_enable_channel_title (channel : Int) (enabled : Bool)
    (body : String) : String × Except String Unit :=
  let url := "/cgi-bin/configManager.cgi?action=setConfig&VideoWidget[" ++
    toString channel ++ "].ChannelTitle.EncodeBlend=" ++ pyBool enabled
  let value := parse_dahua_api_response body
  if !dictContains value "OK" && !dictContains value "ok" then
    (url, Except.error "Could enable/disable channel title")
  else
    (url, Except.ok ())

/-- DahuaClient.async_enable_time_overlay (client.py lines 225-232). -/
def async_enable_time_overlay (channel : Int) (enabled : Bool)
    (body : String) : String × Except String Unit :=
  let url := "/cgi-bin/configManager.cgi?action=setConfig&VideoWidget[" ++
    toString channel ++ "].TimeTitle.EncodeBlend=" ++ pyBool enabled
  let value := parse_dahua_api_response body
  if !dictContains value "OK" && !dictContains value "ok" then
    (url, Except.error "Could not enable/disable time overlay")
  else
    (url, Except.ok ())

/-- DahuaClient.async_enable_text_overlay (client.py lines 234-241). -/
def async_enable_text_overlay (channel group : Int) (enabled : Bool)
    (body : String) : String × Except String Unit :=
  let url := "/cgi-bin/configManager.cgi?action=setConfig&VideoWidget[" ++
    toString channel ++ "].CustomTitle[" ++ toString group ++
    "].EncodeBlend=" ++ pyBool enabled
  let value := parse_dahua_api_response body
  if !dictContains value "OK" && !dictContains value "ok" then
    (url, Except.error "Could not enable/disable text overlay")
  else
    (url, Except.ok ())

/-- DahuaClient.async_enable_custom_overlay (client.py lines 243-250). -/
def async_enable_custom_overlay (channel group : Int) (enabled : Bool)
    (body : String) : String × Except String Unit :=
  let url := "/cgi-bin/configManager.cgi?action=setConfig&VideoWidget[" ++
    toString channel ++ "].UserDefinedTitle[" ++ toString group ++
    "].EncodeBlend=" ++ pyBool enabled
  let value := parse_dahua_api_response body
  if !dictContains value "OK" && !dictContains value "ok" then
    (url, Except.error "Could not enable/disable customer overlay")
  else
    (url, Except.ok ())

/-- DahuaClient.async_set_service_set_channel_title (client.py lines 252-260). -/
def async_set_service_set_channel_title (channel : Int) (text1 text2 : String)
    (body : String) : String × Except String Unit :=
  let text := joinPipe [text1, text2]
  let url := "/cgi-bin/configManager.cgi?action=setConfig&ChannelTitle[" ++
    toString channel ++ "].Name=" ++ text
  let value := parse_dahua_api_response body
  if !dictContains value "OK" && !dictContains value "ok" then
    (url, Except.error "Could not set text")
  else
    (url, Except.ok ())

/-- DahuaClient.async_set_service_set_text_overlay (client.py lines 262-271). -/
def async_set_service_set_text_overlay (channel group : Int)
    (text1 text2 text3 text4 : String) (body : String) :
    String × Except String Unit :=
  let text := joinPipe [text1, text2, text3, text4]
  let url := "/cgi-bin/configManager.cgi?action=setConfig&VideoWidget[" ++
    toString channel ++ "].CustomTitle[" ++ toString group ++
    "].Text=" ++ text
  let value := parse_dahua_api_response body
  if !dictContains value "OK" && !dictContains value "ok" then
    (url, Except.error "Could not set text")
  else
    (url, Except.ok ())

/-- DahuaClient.async_set_service_set_custom_overlay (client.py lines 273-281). -/
def async_set_service_set_custom_overlay (channel group : Int)
    (text1 text2 : String) (body : String) : String × Except String Unit :=
  let text := joinPipe [text1, text2]
  let url := "/cgi-bin/configManager.cgi?action=setConfig&VideoWidget[" ++
    toString channel ++ "].UserDefinedTitle[" ++ toString group ++
    "].Text=" ++ text
  let value := parse_dahua_api_response body
  if !dictContains value "OK" && !dictContains value "ok" then
    (url, Except.error "Could not set text")
  else
    (url, Except.ok ())

/-- The condition the source tests: a key equal to the literal string
OK or the literal string ok is present in the parsed response mapping. -/
def hasOkKey (value : List (String × String)) : Bool :=
  dictContains value "OK" || dictContains value "ok"

/-- Scan worker for `containsOkAnyCase`: does the lower-cased character
list contain the adjacent pair o, k. -/
def hasTokenAux : List Char → Bool
  | 'o' :: 'k' :: _ => true
  | _ :: rest => hasTokenAux rest
  | [] => false

/-- Spec-side predicate (from the spec words, for comparison with the
source): a case-insensitive substring scan of the decoded response body
for the token OK. -/
def containsOkAnyCase (s : String) : Bool :=
  hasTokenAux (s.data.map Char.toLower)

/-- DahuaClient.enable_motion_detection (client.py lines 375-390):
given the decoded response bodies of the first (DetectVersion=V3.0) and,
when needed, the second (legacy) setConfig request, returns the list of
request paths actually issued and the mapping handed back to the caller.
The source contains no raise statement, so the model is a total
function. -/
def enable_motion_detection (enabled : Bool) (body1 body2 : String) :
    List String × List (String × String) :=
  let url1 := "/cgi-bin/configManager.cgi?action=setConfig&MotionDetect[0].Enable=" ++
    pyBool enabled ++ "&MotionDetect[0].DetectVersion=V3.0"
  let response := parse_dahua_api_response body1
  if dictContains response "OK" then
    ([url1], response)
  else
    let url2 := "/cgi-bin/configManager.cgi?action=setConfig&MotionDetect[0].Enable=" ++
      pyBool enabled
    ([url1, url2], parse_dahua_api_response body2)

/-! One-off fetch plumbing.  A `RequestOutcome` abstracts what the
authenticated request inside the try-block did: either a response
arrived (status and body) or a particular exception class was raised
somewhere inside the block. -/

/-- Outcome of the body of the try-block shared by `get` and
`get_bytes`: a response with its status and decoded body, or one of the
exception classes named by the handlers of client.py lines 498-505 and
523-530. -/
inductive RequestOutcome
  | success (status : Nat) (body : String)
  | clientError
  | gaierror
  | timeoutError
  | keyTypeError
  | otherError
deriving DecidableEq

/-- Exception classes that can escape `DahuaClient.get`. -/
inductive TransportRaise
  | clientError
  | gaierror
deriving DecidableEq

/-- aiohttp `response.raise_for_status()`: raises `ClientResponseError`
(a subclass of `aiohttp.ClientError`) exactly when the status is 400 or
higher. -/
def raiseForStatusFails (status : Nat) : Bool :=
  decide (400 ≤ status)

/-- DahuaClient.get (client.py lines 507-530).  `Except.error` is an
exception propagated to the caller; `Except.ok none` is the implicit
`return None` reached when a handler only logs; `Except.ok (some m)` is
a normal return of the parsed mapping. -/
def get (outcome : RequestOutcome) :
    Except TransportRaise (Option (List (String × String))) :=
  match outcome with
  | .success status body =>
    if raiseForStatusFails status then Except.error TransportRaise.clientError
    else Except.ok (some (parse_dahua_api_response body))
  | .clientError => Except.error TransportRaise.clientError
  | .gaierror => Except.error TransportRaise.gaierror
  | .timeoutError => Except.ok none
  | .keyTypeError => Except.ok none
  | .otherError => Except.ok none

/-- DahuaClient.get_bytes (client.py lines 483-505).  Every handler only
logs, so no exception escapes: the result is `some body` on a 2xx/3xx
response and `none` (Python `None`) otherwise. -/
def get_bytes (outcome : RequestOutcome) : Option String :=
  match outcome with
  | .success status body =>
    if raiseForStatusFails status then none else some body
  | .clientError => none
  | .gaierror => none
  | .timeoutError => none
  | .keyTypeError => none
  | .otherError => none

/-! Event-stream subscription model. -/

/-- How the chunk iteration of an opened stream response ended:
the server closed it cleanly, an exception interrupted the read (or the
handler), or the surrounding task was cancelled. -/
inductive StreamEnding
  | closed
  | readError
  | cancelled
deriving DecidableEq

/-- What the transport did for a `stream_events` call: `auth.request`
itself raised, or a response arrived with the given status and the
chunks readable before `ending` occurred. -/
inductive StreamOutcome
  | requestError
  | response (status : Nat) (chunks : List String) (ending : StreamEnding)
deriving DecidableEq

/-- What escapes a `stream_events` call: nothing, the `ConnectionError`
raised by the handler at client.py line 457, or the cancellation itself
(`asyncio.CancelledError` is not an `Exception`, so it passes the
handler unwrapped while the finally-block still runs). -/
inductive StreamRaise
  | nofail
  | connectionError
  | cancelled
deriving DecidableEq

/-- Observable effects of one `stream_events` call. -/
structure StreamRun where
  requested : Bool
  delivered : List String
  released : Nat
  raised : StreamRaise
deriving DecidableEq

/-- DahuaClient.stream_events (client.py lines 392-460), response
handling only (the subscription URL is covered by the trace model
below).  The credential guard at line 446 precedes everything; a raised
`raise_for_status` (status 400+) or any in-loop failure is wrapped as
`ConnectionError`; the finally-block closes an opened response exactly
once on every path. -/
def stream_events (username password : Option String)
    (outcome : StreamOutcome) : StreamRun :=
  match username, password with
  | some _, some _ =>
    match outcome with
    | .requestError =>
      { requested := true, delivered := [], released := 0,
        raised := StreamRaise.connectionError }
    | .response status chunks ending =>
      if raiseForStatusFails status then
        { requested := true, delivered := [], released := 1,
          raised := StreamRaise.connectionError }
      else
        match ending with
        | .closed =>
          { requested := true, delivered := chunks, released := 1,
            raised := StreamRaise.nofail }
        | .readError =>
          { requested := true, delivered := chunks, released := 1,
            raised := StreamRaise.connectionError }
        | .cancelled =>
          { requested := true, delivered := chunks, released := 1,
            raised := StreamRaise.cancelled }
  | _, _ =>
    { requested := false, delivered := [], released := 0,
      raised := StreamRaise.nofail }

/-! Authenticator-construction trace model.  Each client method that
performs network I/O is mapped to the list of externally visible
actions it performs, in order; constructing a fresh `DigestAuth` is one
such action. -/

/-- An externally visible action of a client method. -/
inductive ClientAction
  | newDigestAuth
  | httpRequest (method : String) (url : String)
deriving DecidableEq

/-- The subscription URL built at client.py lines 444-445. -/
def streamUrl (base : String) (events : List String) : String :=
  base ++ "/cgi-bin/eventManager.cgi?action=attach&codes=[" ++
    String.intercalate "," events ++ "]&heartbeat=2"

/-- One call into the client that reaches the network layer. -/
inductive ClientCall
  | getCall (url : String)
  | getBytesCall (url : String)
  | streamCall (events : List String)

/-- Action trace of one client call.  `get` (lines 515-516) and
`get_bytes` (lines 489-490) unconditionally construct a fresh
`DigestAuth` and issue one GET; `stream_events` (lines 446-450) does so
only when both credentials are present. -/
def callActions (base : String) (username password : Option String) :
    ClientCall → List ClientAction
  | .getCall url =>
    [ClientAction.newDigestAuth, ClientAction.httpRequest "GET" (base ++ url)]
  | .getBytesCall url =>
    [ClientAction.newDigestAuth, ClientAction.httpRequest "GET" (base ++ url)]
  | .streamCall events =>
    if username.isSome && password.isSome then
      [ClientAction.newDigestAuth,
       ClientAction.httpRequest "GET" (streamUrl base events)]
    else
      []

/-- Action trace of a sequence of calls on one `DahuaClient` instance. -/
def runClient (base : String) (username password : Option String)
    (calls : List ClientCall) : List ClientAction :=
  (calls.map (callActions base username password)).flatten

/-- Number of `DigestAuth` instances constructed along a trace. -/
def countAuths (actions : List ClientAction) : Nat :=
  (actions.filter fun a => a == ClientAction.newDigestAuth).length

/-! Stream-name helpers. -/

/-- Modelled from the spec: `custom_components/dahua/const.py` is not
under src/; the spec names the stream enumeration Main / Sub, so the
constants are modelled as those two strings. -/
def STREAM_MAIN : String := "Main"

/-- Modelled from the spec: see `STREAM_MAIN`. -/
def STREAM_SUB : String := "Sub"

/-- DahuaClient.to_subtype (client.py lines 532-543). -/
def to_subtype (stream_name : String) : Int :=
  if stream_name = STREAM_MAIN then 0
  else if stream_name = STREAM_SUB then 1
  else 0

/-- DahuaClient.to_stream_name (client.py lines 545-554). -/
def to_stream_name (subtype : Int) : String :=
  if subtype = 1 then STREAM_SUB
  else STREAM_MAIN

/-! Helper lemmas about the parsing machinery. -/

theorem string_mk_data : ∀ s : String, String.mk s.data = s
  | ⟨_⟩ => rfl

theorem string_data_append : ∀ s t : String, (s ++ t).data = s.data ++ t.data
  | ⟨_⟩, ⟨_⟩ => rfl

theorem isLineTerm_false_ne (c : Char) (h : isLineTerm c = false) :
    c ≠ Char.ofNat 10 ∧ c ≠ Char.ofNat 13 := by
  constructor
  · rintro rfl; exact absurd h (by decide)
  · rintro rfl; exact absurd h (by decide)

/-- On input free of line terminators, `splitlinesAux` yields exactly one
line consisting of the pending accumulator followed by the input. -/
theorem splitlinesAux_noTerm :
    ∀ (cs : List Char) (prevCR : Bool) (acc : List Char),
      (∀ c ∈ cs, isLineTerm c = false) → (cs ≠ [] ∨ acc ≠ []) →
      splitlinesAux cs prevCR acc = [String.mk (acc.reverse ++ cs)] := by
  intro cs
  induction cs with
  | nil =>
    intro prevCR acc _ hne
    rcases hne with h | h
    · exact absurd rfl h
    · match acc, h with
      | a :: as, _ => simp [splitlinesAux]
  | cons c rest ih =>
    intro prevCR acc hterm _
    have hc : isLineTerm c = false := hterm c (List.mem_cons_self c rest)
    obtain ⟨h10, h13⟩ := isLineTerm_false_ne c hc
    simp only [splitlinesAux]
    rw [if_neg (fun hh => h10 hh.1), if_neg h13, if_neg (by simp [hc]),
      ih false (c :: acc) (fun d hd => hterm d (List.mem_cons_of_mem c hd))
        (Or.inr (by simp))]
    simp [List.append_assoc]

theorem splitFirstEq_not_mem :
    ∀ cs : List Char, '=' ∉ cs → splitFirstEq cs = none := by
  intro cs
  induction cs with
  | nil => intro _; rfl
  | cons c rest ih =>
    intro h
    simp only [List.mem_cons, not_or] at h
    obtain ⟨h1, h2⟩ := h
    simp only [splitFirstEq]
    rw [if_neg (fun hh => h1 hh.symm), ih h2]

theorem splitFirstEq_first :
    ∀ k v : List Char, '=' ∉ k →
      splitFirstEq (k ++ '=' :: v) = some (k, v) := by
  intro k v
  induction k with
  | nil => intro _; simp [splitFirstEq]
  | cons c rest ih =>
    intro h
    simp only [List.mem_cons, not_or] at h
    obtain ⟨h1, h2⟩ := h
    simp only [List.cons_append, splitFirstEq, List.append_eq]
    rw [if_neg (fun hh => h1 hh.symm), ih h2]

/-- A single terminator-free line without an equals sign parses to the
singleton mapping sending the line to itself. -/
theorem parse_single_noeq (l : String) (h1 : l.data ≠ [])
    (h2 : ∀ c ∈ l.data, isLineTerm c = false) (h3 : '=' ∉ l.data) :
    parse_dahua_api_response l = [(l, l)] := by
  unfold parse_dahua_api_response splitlines
  rw [splitlinesAux_noTerm l.data false [] h2 (Or.inl h1)]
  simp only [List.reverse_nil, List.nil_append, string_mk_data,
    List.foldl_cons, List.foldl_nil]
  unfold parseLine
  rw [splitFirstEq_not_mem l.data h3]
  simp [dictInsert, dictContains]

/-- A single terminator-free line with an equals sign parses to the
key/value pair split at the first equals sign. -/
theorem parse_single_eq (k v : String)
    (hk : ∀ c ∈ k.data, isLineTerm c = false)
    (hv : ∀ c ∈ v.data, isLineTerm c = false)
    (hne : '=' ∉ k.data) :
    parse_dahua_api_response (k ++ "=" ++ v) = [(k, v)] := by
  have heq : ("=" : String).data = ['='] := rfl
  have hdata : (k ++ "=" ++ v).data = k.data ++ '=' :: v.data := by
    rw [string_data_append, string_data_append, heq]
    simp
  have hterm : ∀ c ∈ (k ++ "=" ++ v).data, isLineTerm c = false := by
    rw [hdata]
    intro c hc
    rcases List.mem_append.mp hc with h | h
    · exact hk c h
    · rcases List.mem_cons.mp h with rfl | h
      · decide
      · exact hv c h
  have hne2 : (k ++ "=" ++ v).data ≠ [] := by
    rw [hdata]; simp
  unfold parse_dahua_api_response splitlines
  rw [splitlinesAux_noTerm _ false [] hterm (Or.inl hne2)]
  simp only [List.reverse_nil, List.nil_append, string_mk_data,
    List.foldl_cons, List.foldl_nil]
  unfold parseLine
  rw [hdata, splitFirstEq_first k.data v.data hne]
  simp [dictInsert, dictContains, string_mk_data]

theorem newDigestAuth_beq_self :
    (ClientAction.newDigestAuth == ClientAction.newDigestAuth) = true := rfl

theorem httpRequest_beq_newDigestAuth (m u : String) :
    (ClientAction.httpRequest m u == ClientAction.newDigestAuth) = false := rfl

theorem countAuths_append (l1 l2 : List ClientAction) :
    countAuths (l1 ++ l2) = countAuths l1 + countAuths l2 := by
  simp [countAuths, List.filter_append]

theorem runClient_cons (base : String) (username password : Option String)
    (c : ClientCall) (calls : List ClientCall) :
    runClient base username password (c :: calls) =
      callActions base username password c ++
        runClient base username password calls := by
  simp [runClient]

/-- Each networked call with credentials present constructs exactly one
DigestAuth. -/
theorem countAuths_callActions (base u p : String) (c : ClientCall) :
    countAuths (callActions base (some u) (some p) c) = 1 := by
  cases c <;>
    simp [callActions, countAuths, List.filter_cons, List.filter_nil,
      newDigestAuth_beq_self, httpRequest_beq_newDigestAuth]

/-! Claim theorems. -/

/-- Claim C1, counterexample: the decoded response body Ok contains the
token OK in a letter case (namely Ok itself), yet
async_set_video_profile_mode raises its operation-specific error —
contradicting the claim that every decoded response containing OK in any
letter case makes the operation return without error. -/
theorem claim1_counterexample :
    containsOkAnyCase "Ok" = true ∧
    (async_set_video_profile_mode "day" "Ok").2 =
      Except.error "Could not set video profile mode" :=
  ⟨by decide, rfl⟩

/-- Claim C1, amended: for each of the eight set-configuration
operations, success is determined by exact key membership in the mapping
parsed from the decoded response body — the operation returns without
error iff that mapping contains a key equal to the literal string OK or
the literal string ok; otherwise it raises the operation-specific
error. -/
theorem claim1_amended (body mode : String) (channel group : Int)
    (enabled : Bool) (t1 t2 t3 t4 : String) :
    ((async_set_video_profile_mode mode body).2 = Except.ok () ↔
      hasOkKey (parse_dahua_api_response body) = true) ∧
    ((async_enable_channel_title channel enabled body).2 = Except.ok () ↔
      hasOkKey (parse_dahua_api_response body) = true) ∧
    ((async_enable_time_overlay channel enabled body).2 = Except.ok () ↔
      hasOkKey (parse_dahua_api_response body) = true) ∧
    ((async_enable_text_overlay channel group enabled body).2 = Except.ok () ↔
      hasOkKey (parse_dahua_api_response body) = true) ∧
    ((async_enable_custom_overlay channel group enabled body).2 = Except.ok () ↔
      hasOkKey (parse_dahua_api_response body) = true) ∧
    ((async_set_service_set_channel_title channel t1 t2 body).2 = Except.ok () ↔
      hasOkKey (parse_dahua_api_response body) = true) ∧
    ((async_set_service_set_text_overlay channel group t1 t2 t3 t4 body).2 =
        Except.ok () ↔
      hasOkKey (parse_dahua_api_response body) = true) ∧
    ((async_set_service_set_custom_overlay channel group t1 t2 body).2 =
        Except.ok () ↔
      hasOkKey (parse_dahua_api_response body) = true) := by
  cases h1 : dictContains (parse_dahua_api_response body) "OK" <;>
    cases h2 : dictContains (parse_dahua_api_response body) "ok" <;>
      simp [async_set_video_profile_mode, async_enable_channel_title,
        async_enable_time_overlay, async_enable_text_overlay,
        async_enable_custom_overlay, async_set_service_set_channel_title,
        async_set_service_set_text_overlay,
        async_set_service_set_custom_overlay, hasOkKey, h1, h2]

/-- Claim C2: on a DNS/socket-class transport failure (aiohttp
ClientError or socket.gaierror), the text path get re-raises the error
to the caller while the binary path get_bytes swallows it and yields an
absent result. -/
theorem claim2_transport_asymmetry :
    get RequestOutcome.clientError = Except.error TransportRaise.clientError ∧
    get RequestOutcome.gaierror = Except.error TransportRaise.gaierror ∧
    get_bytes RequestOutcome.clientError = none ∧
    get_bytes RequestOutcome.gaierror = none :=
  ⟨rfl, rfl, rfl, rfl⟩

/-- Claim C3, code evaluation: a timeout during get() is swallowed (no
exception escapes), but the call returns Python None — Except.ok none —
and not the empty mapping the claim (and the dead local data initialised
at client.py line 510, together with the declared dict return type)
promises. -/
theorem claim3_timeout_eval :
    get RequestOutcome.timeoutError = Except.ok none ∧
    get RequestOutcome.timeoutError ≠
      Except.ok (some ([] : List (String × String))) :=
  ⟨rfl, by simp [get]⟩

/-- Claim C4, counterexample: two get calls on one client construct two
DigestAuth instances, not the single per-client-lifetime instance the
claim asserts. -/
theorem claim4_counterexample :
    countAuths (runClient "http://192.168.1.108:80" (some "admin")
      (some "password")
      [ClientCall.getCall "/cgi-bin/magicBox.cgi?action=getSystemInfo",
       ClientCall.getCall "/cgi-bin/magicBox.cgi?action=getMachineName"]) = 2 ∧
    (2 : Nat) ≠ 1 :=
  ⟨rfl, by decide⟩

/-- Claim C4, amended: every invocation of get, get_bytes, or
stream_events (the latter with both credentials present) constructs its
own fresh DigestAuth instance — a client performing n such requests
constructs exactly n authenticator instances, so each request has its
own nonce-count sequence rather than one sequence per client
lifetime. -/
theorem claim4_amended (base u p : String) (calls : List ClientCall) :
    countAuths (runClient base (some u) (some p) calls) = calls.length := by
  induction calls with
  | nil => rfl
  | cons c rest ih =>
    rw [runClient_cons, countAuths_append, ih,
      countAuths_callActions base u p c, List.length_cons, Nat.add_comm]

/-- Claim C5, counterexample: a response with the non-2xx status 304
passes raise_for_status (which only rejects 400 and above), so
stream_events enters the streaming loop and completes without raising
ConnectionError — contradicting the claim that it never enters the loop
on a non-2xx status. -/
theorem claim5_counterexample :
    (stream_events (some "admin") (some "password")
        (StreamOutcome.response 304
          [ "Code=VideoMotion;action=Start;index=0" ]
          StreamEnding.closed)).raised ≠ StreamRaise.connectionError ∧
    (stream_events (some "admin") (some "password")
        (StreamOutcome.response 304
          [ "Code=VideoMotion;action=Start;index=0" ]
          StreamEnding.closed)).delivered ≠ [] ∧
    ¬(200 ≤ 304 ∧ 304 < 300) := by
  refine ⟨?_, ?_, ?_⟩ <;> decide

/-- Claim C5, amended: with both credentials present, a failure of the
authenticated GET itself, a response status of 400 or above (the
statuses raise_for_status rejects), or any exception while reading the
stream each surface as ConnectionError, and on a 400-or-above status the
streaming loop is never entered (nothing is delivered). -/
theorem claim5_amended (u p : String) :
    (stream_events (some u) (some p) StreamOutcome.requestError =
      { requested := true, delivered := [], released := 0,
        raised := StreamRaise.connectionError }) ∧
    (∀ (status : Nat) (chunks : List String) (ending : StreamEnding),
        400 ≤ status →
        stream_events (some u) (some p)
            (StreamOutcome.response status chunks ending) =
          { requested := true, delivered := [], released := 1,
            raised := StreamRaise.connectionError }) ∧
    (∀ (status : Nat) (chunks : List String), status < 400 →
        stream_events (some u) (some p)
            (StreamOutcome.response status chunks StreamEnding.readError) =
          { requested := true, delivered := chunks, released := 1,
            raised := StreamRaise.connectionError }) := by
  refine ⟨rfl, ?_, ?_⟩
  · intro status chunks ending h
    have hf : raiseForStatusFails status = true := by
      unfold raiseForStatusFails
      exact decide_eq_true h
    simp [stream_events, hf]
  · intro status chunks h
    have hf : raiseForStatusFails status = false := by
      unfold raiseForStatusFails
      exact decide_eq_false (Nat.not_le.mpr h)
    simp [stream_events, hf]

/-- Witness for claim C5 at concrete inputs: status 500 is rejected
before the loop, and a read error on a 200 response is wrapped as
ConnectionError. -/
theorem claim5_witness :
    400 ≤ 500 ∧ 200 < 400 ∧
    stream_events (some "admin") (some "password")
        (StreamOutcome.response 500 [] StreamEnding.closed) =
      { requested := true, delivered := [], released := 1,
        raised := StreamRaise.connectionError } ∧
    stream_events (some "admin") (some "password")
        (StreamOutcome.response 200 [ "Heartbeat" ] StreamEnding.readError) =
      { requested := true, delivered := [ "Heartbeat" ], released := 1,
        raised := StreamRaise.connectionError } :=
  ⟨by decide, by decide,
   (claim5_amended "admin" "password").2.1 500 [] StreamEnding.closed
     (by decide),
   (claim5_amended "admin" "password").2.2 200 [ "Heartbeat" ] (by decide)⟩

/-- Claim C6: parse_dahua_api_response splits its input into lines and
each line on the first equals sign; a key=value line maps the key to the
value, a line with no equals sign maps the whole line to itself, and the
two concrete examples of the spec evaluate as stated. -/
theorem claim6_parse :
    (∀ k v : String, (∀ c ∈ k.data, isLineTerm c = false) →
        (∀ c ∈ v.data, isLineTerm c = false) → '=' ∉ k.data →
        parse_dahua_api_response (k ++ "=" ++ v) = [(k, v)]) ∧
    (∀ l : String, l.data ≠ [] → (∀ c ∈ l.data, isLineTerm c = false) →
        '=' ∉ l.data → parse_dahua_api_response l = [(l, l)]) ∧
    parse_dahua_api_response "key1=value1\nkey2=value2" =
      [("key1", "value1"), ("key2", "value2")] ∧
    parse_dahua_api_response "standalonekey" =
      [("standalonekey", "standalonekey")] :=
  ⟨parse_single_eq, parse_single_noeq, by decide, by decide⟩

/-- Witness for claim C6 at concrete inputs. -/
theorem claim6_parse_witness :
    parse_dahua_api_response ("ab" ++ "=" ++ "cd") = [("ab", "cd")] ∧
    parse_dahua_api_response "xyz" = [("xyz", "xyz")] :=
  ⟨claim6_parse.1 "ab" "cd" (by decide) (by decide) (by decide),
   claim6_parse.2.1 "xyz" (by decide) (by decide) (by decide)⟩

/-- Claim C7: every stream_events call that opened a response releases
the connection resource exactly once, on every exit path — clean close,
read error, or cancellation, and for accepted and rejected statuses
alike. -/
theorem claim7_release_once (u p : String) (status : Nat)
    (chunks : List String) (ending : StreamEnding) :
    (stream_events (some u) (some p)
        (StreamOutcome.response status chunks ending)).released = 1 := by
  cases hf : raiseForStatusFails status <;> cases ending <;>
    simp [stream_events, hf]

/-- Claim C8: to_subtype maps Main to 0, Sub to 1, and every other
string to 0; to_stream_name maps 1 to Sub and every other integer to
Main; and the round trip holds on Main and Sub. -/
theorem claim8_stream_names :
    to_subtype "Main" = 0 ∧ to_subtype "Sub" = 1 ∧
    (∀ s : String, s ≠ "Main" → s ≠ "Sub" → to_subtype s = 0) ∧
    to_stream_name 1 = "Sub" ∧
    (∀ n : Int, n ≠ 1 → to_stream_name n = "Main") ∧
    (∀ x : String, x = "Main" ∨ x = "Sub" →
        to_stream_name (to_subtype x) = x) := by
  refine ⟨by decide, by decide, ?_, by decide, ?_, ?_⟩
  · intro s h1 h2
    simp [to_subtype, STREAM_MAIN, STREAM_SUB, h1, h2]
  · intro n h
    simp [to_stream_name, STREAM_MAIN, h]
  · rintro x (rfl | rfl) <;> decide

/-- Witness for claim C8 at concrete inputs. -/
theorem claim8_stream_names_witness :
    to_subtype "Other" = 0 ∧ to_stream_name 0 = "Main" ∧
    to_stream_name (to_subtype "Sub") = "Sub" :=
  ⟨claim8_stream_names.2.2.1 "Other" (by decide) (by decide),
   claim8_stream_names.2.2.2.2.1 0 (by decide),
   claim8_stream_names.2.2.2.2.2 "Sub" (Or.inr rfl)⟩

/-- Claim C9: when the username or the password is None, stream_events
returns immediately — no HTTP request, no on_receive invocation, no
release, and nothing raised. -/
theorem claim9_no_credentials (outcome : StreamOutcome)
    (p : Option String) (u : String) :
    stream_events none p outcome =
      { requested := false, delivered := [], released := 0,
        raised := StreamRaise.nofail } ∧
    stream_events (some u) none outcome =
      { requested := false, delivered := [], released := 0,
        raised := StreamRaise.nofail } :=
  ⟨rfl, rfl⟩

/-- Claim C10: when the first setConfig response mapping lacks the key
OK, enable_motion_detection raises nothing, issues a second request to
the legacy URL without the DetectVersion parameter, and returns that
second parsed response verbatim, whatever it contains. -/
theorem claim10_motion_fallback (enabled : Bool) (body1 body2 : String)
    (h : dictContains (parse_dahua_api_response body1) "OK" = false) :
    enable_motion_detection enabled body1 body2 =
      ([ "/cgi-bin/configManager.cgi?action=setConfig&MotionDetect[0].Enable=" ++
          pyBool enabled ++ "&MotionDetect[0].DetectVersion=V3.0",
        "/cgi-bin/configManager.cgi?action=setConfig&MotionDetect[0].Enable=" ++
          pyBool enabled ],
       parse_dahua_api_response body2) := by
  simp [enable_motion_detection, h]

/-- Witness for claim C10 at concrete inputs. -/
theorem claim10_motion_fallback_witness :
    dictContains (parse_dahua_api_response "Error") "OK" = false ∧
    enable_motion_detection true "Error" "OK" =
      ([ "/cgi-bin/configManager.cgi?action=setConfig&MotionDetect[0].Enable=" ++
          pyBool true ++ "&MotionDetect[0].DetectVersion=V3.0",
        "/cgi-bin/configManager.cgi?action=setConfig&MotionDetect[0].Enable=" ++
          pyBool true ],
       parse_dahua_api_response "OK") :=
  ⟨by decide, claim10_motion_fallback true "Error" "OK" (by decide)⟩

end Dahua
